import Mathlib

/-!
Shallow embedding of `src/main.rs` of stable-diffusion.cpp-server: a small
actix-web HTTP façade that authenticates a bearer token, builds an argument
vector for an external stable-diffusion binary, runs it, and returns the
produced image file base64-encoded in a JSON envelope.

Modelling conventions:
- Rust `String` is Lean `String`; `u32`/`u64` are `Nat`; `i32` is `Int`;
  bytes (`Vec<u8>`) are `List (Fin 256)`.
- `f32` is modelled by its `Display` rendering (structure `F32`): the program
  performs no arithmetic on `cfg_scale`, it only deserializes it and renders
  it with `to_string()`; the literal `7.0f32` renders as `"7"`.
- The effects of the handler (current time, subprocess outcome, file read
  result, file delete result) are passed in as explicit parameters; the
  handler body is the pure function `generate_image`.
- actix-web dispatch for `POST /v1/images/generations` is modelled by
  `dispatch`: the framework's `web::Json` extractor deserializes the request
  body BEFORE the handler runs (a deserialization failure is answered by the
  framework with a 400 response and the handler is never invoked); the trace
  of observable steps is recorded as a `List Event`.
-/

namespace SDServer

/-- Model of a Rust `f32` by its `Display` rendering, the only operation the
program applies to one (`body.cfg_scale.to_string()`). -/
structure F32 where
  display : String
deriving DecidableEq, Repr

/-- Runtime configuration, read once from environment variables at startup
(struct `Context` in `main.rs`). -/
structure Context where
  port : Nat
  token : String
  binary_path : String
  args : Option (List String)
  models_dir : String
  cache_dir : String
deriving DecidableEq, Repr

/-- Deserialized body of `POST /v1/images/generations`
(struct `ImageGenerationRequest` in `main.rs`), with serde defaults already
applied by the deserializer. -/
structure ImageGenerationRequest where
  prompt : String
  model : String
  size : String
  negative_prompt : Option String
  steps : Nat
  cfg_scale : F32
  seed : Int
deriving DecidableEq, Repr

/-- serde default for `size` (`fn default_size`). -/
def default_size : String := "512x512"

/-- serde default for `steps` (`fn default_steps`). -/
def default_steps : Nat := 20

/-- serde default for `cfg_scale` (`fn default_cfg_scale`, the f32 `7.0`,
whose `Display` rendering is `"7"`). -/
def default_cfg_scale : F32 := ⟨"7"⟩

/-- serde default for `seed` (`fn default_seed`). -/
def default_seed : Int := -1

/-- An HTTP response produced for the generation endpoint.
`ok` is the 200 response `{created, data:[{b64_json}]}` (the `data` list holds
each element's `b64_json`); `apiError` is a JSON error body
`{error:{message, type}}` with the given status; `frameworkError` models the
response actix-web itself produces when the `web::Json` extractor fails
(status 400, body not of the JSON error shape above). -/
inductive ApiResponse where
  | ok (created : Nat) (data : List String)
  | apiError (status : Nat) (message : String) (errType : String)
  | frameworkError (status : Nat)
deriving DecidableEq, Repr

/-- Status code of a response. -/
def ApiResponse.status : ApiResponse → Nat
  | .ok _ _ => 200
  | .apiError s _ _ => s
  | .frameworkError s => s

/-- The `type` field of the JSON error body, when the response has one. -/
def ApiResponse.errType : ApiResponse → Option String
  | .apiError _ _ t => some t
  | _ => none

/-- The `message` field of the JSON error body, when the response has one. -/
def ApiResponse.msg : ApiResponse → Option String
  | .apiError _ m _ => some m
  | _ => none

/-- The `data` array of a success response (`b64_json` of each element),
when the response is a success. -/
def ApiResponse.images : ApiResponse → Option (List String)
  | .ok _ d => some d
  | _ => none

/-- Executable model of Rust `str::starts_with`: the first characters of `s`
are exactly the characters of `p`. -/
def strStartsWith (s p : String) : Bool := s.data.take p.data.length == p.data

/-- Executable model of the byte slice `&s[n..]` for a character count `n`
(characters and bytes coincide here: the slice is only taken at offset 7,
past the 7 ASCII characters of `Bearer `). -/
def strDrop (s : String) (n : Nat) : String := String.mk (s.data.drop n)

/-- `fn verify_bearer_token(req, expected_token)`: the `Authorization` header
(modelled by its string value, `None` when absent) must be present, start
with the literal `Bearer ` and its remainder (byte index 7 onward, which is
character index 7 because the prefix is 7 ASCII characters) must equal the
configured token; otherwise a 401 JSON error is returned. -/
def verify_bearer_token (header : Option String) (expected_token : String) :
    Except ApiResponse Unit :=
  match header with
  | some auth_str =>
    if strStartsWith auth_str "Bearer " && strDrop auth_str 7 == expected_token
    then
      .ok ()
    else
      .error (.apiError 401 "Invalid or missing authorization token"
        "invalid_request_error")
  | none =>
    .error (.apiError 401 "Invalid or missing authorization token"
      "invalid_request_error")

/-- Whether `verify_bearer_token` accepts the header. -/
def authOk (header : Option String) (expected_token : String) : Bool :=
  match verify_bearer_token header expected_token with
  | .ok _ => true
  | .error _ => false

/-- Splitting a character list at every occurrence of a separator character,
as Rust `str::split(char)` does on the string's characters: `n` separators
yield `n + 1` (possibly empty) pieces. -/
def splitChars (sep : Char) : List Char → List (List Char)
  | [] => [[]]
  | c :: cs =>
    if c = sep then [] :: splitChars sep cs
    else
      match splitChars sep cs with
      | r :: rs => (c :: r) :: rs
      | [] => [[c]]

/-- Executable model of `body.size.split('x').collect::<Vec<&str>>()`. -/
def strSplit (s : String) (sep : Char) : List String :=
  (splitChars sep s.data).map String.mk

/-- The argument vector built by `generate_image` for the external binary:
the successive `cmd.arg(...)` calls of `main.rs` lines 74-100, modelled as
successive list appends (each `arg` call passes one discrete token; there is
no shell interpolation). -/
def buildArgs (ctx : Context) (req : ImageGenerationRequest)
    (output_path : String) : List String :=
  let cmd : List String := []
  let cmd := match ctx.args with
    | some args => cmd ++ args
    | none => cmd
  let cmd := cmd ++ ["-m", ctx.models_dir ++ "/" ++ req.model]
  let cmd := cmd ++ ["-p", req.prompt]
  let cmd := cmd ++ ["-o", output_path]
  let cmd := cmd ++ ["--steps", toString req.steps]
  let cmd := cmd ++ ["--cfg-scale", req.cfg_scale.display]
  let cmd := if 0 ≤ req.seed then cmd ++ ["--seed", toString req.seed] else cmd
  let cmd := match req.negative_prompt with
    | some neg_prompt => cmd ++ ["-n", neg_prompt]
    | none => cmd
  let size_parts := strSplit req.size 'x'
  let cmd := if size_parts.length = 2 then
      cmd ++ ["-W", size_parts.getD 0 ""] ++ ["-H", size_parts.getD 1 ""]
    else cmd
  cmd

/-- The 64 characters of the standard (non URL-safe) base64 alphabet used by
`base64::engine::general_purpose::STANDARD`. -/
def b64Alphabet : List Char :=
  ['A', 'B', 'C', 'D', 'E', 'F', 'G', 'H', 'I', 'J', 'K', 'L', 'M',
   'N', 'O', 'P', 'Q', 'R', 'S', 'T', 'U', 'V', 'W', 'X', 'Y', 'Z',
   'a', 'b', 'c', 'd', 'e', 'f', 'g', 'h', 'i', 'j', 'k', 'l', 'm',
   'n', 'o', 'p', 'q', 'r', 's', 't', 'u', 'v', 'w', 'x', 'y', 'z',
   '0', '1', '2', '3', '4', '5', '6', '7', '8', '9', '+', '/']

/-- Character of a 6-bit value in the standard base64 alphabet. -/
def b64Char (n : Nat) : Char := b64Alphabet.getD n 'A'

/-- Position of a character in a list, used to invert the alphabet. -/
def charIdx : List Char → Nat → Char → Option Nat
  | [], _, _ => none
  | a :: as, i, c => if c = a then some i else charIdx as (i + 1) c

/-- 6-bit value of a standard base64 alphabet character. -/
def b64Val (c : Char) : Option Nat := charIdx b64Alphabet 0 c

/-- A byte from a natural number (reduction modulo 256). -/
def mkByte (n : Nat) : Fin 256 := ⟨n % 256, Nat.mod_lt _ (by decide)⟩

/-- Standard base64 encoding with padding, three input bytes to four output
characters, as performed by `base64::engine::general_purpose::STANDARD`. -/
def b64EncodeChunks : List (Fin 256) → List Char
  | b0 :: b1 :: b2 :: rest =>
    let n := b0.val * 65536 + b1.val * 256 + b2.val
    b64Char (n / 262144) :: b64Char (n / 4096 % 64) ::
      b64Char (n / 64 % 64) :: b64Char (n % 64) :: b64EncodeChunks rest
  | [b0, b1] =>
    let n := b0.val * 1024 + b1.val * 4
    [b64Char (n / 4096), b64Char (n / 64 % 64), b64Char (n % 64), '=']
  | [b0] =>
    let n := b0.val * 16
    [b64Char (n / 64), b64Char (n % 64), '=', '=']
  | [] => []

/-- Standard padded base64 decoding, four characters to up to three bytes;
fails on characters outside the alphabet or misplaced padding. -/
def b64DecodeChunks : List Char → Option (List (Fin 256))
  | c0 :: c1 :: c2 :: c3 :: rest =>
    match b64Val c0, b64Val c1 with
    | some v0, some v1 =>
      if c2 = '=' then
        if c3 = '=' ∧ rest = [] then
          some [mkByte ((v0 * 64 + v1) / 16)]
        else none
      else
        match b64Val c2 with
        | some v2 =>
          if c3 = '=' then
            if rest = [] then
              some [mkByte ((v0 * 4096 + v1 * 64 + v2) / 1024),
                mkByte ((v0 * 4096 + v1 * 64 + v2) / 4)]
            else none
          else
            match b64Val c3 with
            | some v3 =>
              match b64DecodeChunks rest with
              | some tail =>
                let m := v0 * 262144 + v1 * 4096 + v2 * 64 + v3
                some (mkByte (m / 65536) :: mkByte (m / 256) :: mkByte m :: tail)
              | none => none
            | none => none
        | none => none
    | _, _ => none
  | [] => some []
  | _ => none

/-- Base64 encoding of a byte vector as a string (standard alphabet, padded). -/
def b64Encode (bs : List (Fin 256)) : String := String.mk (b64EncodeChunks bs)

/-- Base64 decoding of a string (standard alphabet, padded). -/
def b64Decode (s : String) : Option (List (Fin 256)) := b64DecodeChunks s.data

/-- Outcome of `cmd.output().await` for the external binary: the spawn itself
failed (`Err(e)` with the error's rendering), or the process ran to
completion with the given `status.success()` flag and captured standard
error (already decoded from bytes, as by `String::from_utf8_lossy`). -/
inductive ProcessOutcome where
  | spawnError (e : String)
  | completed (success : Bool) (stderr : String)
deriving DecidableEq, Repr

/-- Observable outcome of one invocation of the `generate_image` handler:
the HTTP response, whether a subprocess spawn was attempted
(`cmd.output().await` reached), the result of the `remove_file` attempt
(`none` when no deletion was attempted, `some ok` when attempted with the
given outcome, which the code discards with `let _ = ...`), the output
artifact path that was computed (`none` when the handler returned before
computing it), and the argument vector built for the binary (`[]` when the
handler returned before building it). -/
structure GenOutcome where
  response : ApiResponse
  spawned : Bool
  deleteResult : Option Bool
  outputPath : Option String
  argv : List String
deriving DecidableEq, Repr

/-- The `generate_image` handler body (`main.rs` lines 57-141), as a pure
function of the request data and of its environment interactions: `timestamp`
is the value of `SystemTime::now()...as_secs()` taken at the start of the
request, `proc` the outcome of running the binary, `readRes` the outcome of
`tokio::fs::read(&output_path)`, and `deleteOk` the outcome of
`tokio::fs::remove_file(&output_path)` (consulted only if that call is made,
and discarded either way). -/
def generate_image (ctx : Context) (header : Option String)
    (req : ImageGenerationRequest) (timestamp : Nat) (proc : ProcessOutcome)
    (readRes : Except String (List (Fin 256))) (deleteOk : Bool) :
    GenOutcome :=
  match verify_bearer_token header ctx.token with
  | .error response =>
    { response := response, spawned := false, deleteResult := none,
      outputPath := none, argv := [] }
  | .ok _ =>
    let output_path :=
      ctx.cache_dir ++ "/sd_output_" ++ toString timestamp ++ ".png"
    let argv := buildArgs ctx req output_path
    match proc with
    | .spawnError e =>
      { response := .apiError 500 ("Failed to execute sd command: " ++ e)
          "server_error",
        spawned := true, deleteResult := none,
        outputPath := some output_path, argv := argv }
    | .completed success stderr =>
      if success then
        match readRes with
        | .ok image_data =>
          { response := .ok timestamp [b64Encode image_data],
            spawned := true, deleteResult := some deleteOk,
            outputPath := some output_path, argv := argv }
        | .error e =>
          { response := .apiError 500
              ("Failed to read output image: " ++ e) "server_error",
            spawned := true, deleteResult := none,
            outputPath := some output_path, argv := argv }
      else
        { response := .apiError 500
            ("Image generation failed: " ++ stderr) "server_error",
          spawned := true, deleteResult := none,
          outputPath := some output_path, argv := argv }

/-- Observable steps of the processing of one request to the generation
endpoint: the framework's deserialization of the request body into
`ImageGenerationRequest`, the handler's bearer-token check, and the attempt
to spawn the external process. -/
inductive Event where
  | parseBody
  | authCheck
  | spawnProcess
deriving DecidableEq, Repr

/-- Result of dispatching one request: the handler outcome (or the
framework's own error outcome when the body never deserialized) and the
ordered trace of observable steps. -/
structure DispatchResult where
  outcome : GenOutcome
  trace : List Event
deriving DecidableEq, Repr

/-- actix-web dispatch of `POST /v1/images/generations`: the `web::Json`
extractor deserializes the body first (`body` is `none` when
deserialization fails, in which case the framework answers with its own 400
response and the handler never runs); only then does the handler run,
checking the bearer token first and spawning the subprocess only when the
check passes. -/
def dispatch (ctx : Context) (header : Option String)
    (body : Option ImageGenerationRequest) (timestamp : Nat)
    (proc : ProcessOutcome) (readRes : Except String (List (Fin 256)))
    (deleteOk : Bool) : DispatchResult :=
  match body with
  | none =>
    let out : GenOutcome :=
      { response := .frameworkError 400, spawned := false,
        deleteResult := none, outputPath := none, argv := [] }
    { outcome := out, trace := [.parseBody] }
  | some req =>
    let out := generate_image ctx header req timestamp proc readRes deleteOk
    { outcome := out,
      trace := [.parseBody, .authCheck] ++
        (if out.spawned then [.spawnProcess] else []) }

/-- A concrete configuration used to instantiate theorems. -/
def exCtx : Context :=
  { port := 8080, token := "secret", binary_path := "/usr/bin/sd",
    args := none, models_dir := "/models", cache_dir := "/tmp" }

/-- A concrete request used to instantiate theorems. -/
def exReq : ImageGenerationRequest :=
  { prompt := "a cat", model := "sd-v1.ckpt", size := "512x512",
    negative_prompt := none, steps := 20, cfg_scale := ⟨"7"⟩, seed := -1 }

/-- The value tokens of the argument vector that do not belong to the size
flags: the fixed args, model path, prompt, output path, steps, cfg-scale and
seed renderings, and the negative prompt when present. Used to state
non-collision hypotheses for membership claims. -/
def fixedTokens (ctx : Context) (req : ImageGenerationRequest)
    (output_path : String) : List String :=
  ctx.args.getD [] ++
  [ctx.models_dir ++ "/" ++ req.model, req.prompt, output_path,
   toString req.steps, req.cfg_scale.display, toString req.seed] ++
  req.negative_prompt.toList

theorem verify_cases (header : Option String) (t : String) :
    verify_bearer_token header t = .ok () ∨
      verify_bearer_token header t =
        .error (.apiError 401 "Invalid or missing authorization token"
          "invalid_request_error") := by
  rcases header with _ | v
  · right; rfl
  · simp only [verify_bearer_token]
    split
    · left; rfl
    · right; rfl

theorem verify_eq_ok_of_authOk {header : Option String} {t : String}
    (h : authOk header t = true) : verify_bearer_token header t = .ok () := by
  unfold authOk at h
  rcases verify_cases header t with hv | hv
  · exact hv
  · rw [hv] at h
    simp at h

theorem verify_eq_error_of_not_authOk {header : Option String} {t : String}
    (h : authOk header t = false) :
    verify_bearer_token header t =
      .error (.apiError 401 "Invalid or missing authorization token"
        "invalid_request_error") := by
  unfold authOk at h
  rcases verify_cases header t with hv | hv
  · rw [hv] at h
    simp at h
  · exact hv

theorem authOk_iff (header : Option String) (t : String) :
    authOk header t = true ↔
      ∃ v, header = some v ∧ strStartsWith v "Bearer " = true ∧
        strDrop v 7 = t := by
  rcases header with _ | v
  · simp [authOk, verify_bearer_token]
  · by_cases hc : (strStartsWith v "Bearer " && strDrop v 7 == t) = true
    · have hv : verify_bearer_token (some v) t = .ok () := by
        simp only [verify_bearer_token]
        rw [if_pos hc]
      rw [Bool.and_eq_true, beq_iff_eq] at hc
      simp only [authOk, hv, Option.some.injEq]
      constructor
      · intro _
        exact ⟨v, rfl, hc.1, hc.2⟩
      · intro _
        trivial
    · have hv : verify_bearer_token (some v) t =
          .error (.apiError 401 "Invalid or missing authorization token"
            "invalid_request_error") := by
        simp only [verify_bearer_token]
        rw [if_neg hc]
      simp only [authOk, hv, Option.some.injEq]
      constructor
      · intro h
        simp at h
      · rintro ⟨w, hw, h1, h2⟩
        cases hw
        exact absurd (by rw [Bool.and_eq_true, beq_iff_eq]; exact ⟨h1, h2⟩) hc

theorem buildArgs_eq (ctx : Context) (req : ImageGenerationRequest)
    (output_path : String) :
    buildArgs ctx req output_path =
      ctx.args.getD [] ++
      ["-m", ctx.models_dir ++ "/" ++ req.model, "-p", req.prompt,
       "-o", output_path, "--steps", toString req.steps,
       "--cfg-scale", req.cfg_scale.display] ++
      (if 0 ≤ req.seed then ["--seed", toString req.seed] else []) ++
      (match req.negative_prompt with
        | some n => ["-n", n]
        | none => []) ++
      (if (strSplit req.size 'x').length = 2 then
        ["-W", (strSplit req.size 'x').getD 0 "",
         "-H", (strSplit req.size 'x').getD 1 ""]
       else []) := by
  simp only [buildArgs]
  rcases ctx.args with _ | a <;>
    rcases req.negative_prompt with _ | n <;>
    by_cases hs : 0 ≤ req.seed <;>
    by_cases hl : (strSplit req.size 'x').length = 2 <;>
    simp [hs, hl, Option.getD]

theorem mem_buildArgs (ctx : Context) (req : ImageGenerationRequest)
    (output_path : String) (x : String) :
    x ∈ buildArgs ctx req output_path ↔
      (x ∈ ctx.args.getD [] ∨
       x ∈ ["-m", ctx.models_dir ++ "/" ++ req.model, "-p", req.prompt,
            "-o", output_path, "--steps", toString req.steps,
            "--cfg-scale", req.cfg_scale.display] ∨
       (0 ≤ req.seed ∧ x ∈ ["--seed", toString req.seed]) ∨
       (∃ n, req.negative_prompt = some n ∧ x ∈ ["-n", n]) ∨
       ((strSplit req.size 'x').length = 2 ∧
        x ∈ ["-W", (strSplit req.size 'x').getD 0 "",
             "-H", (strSplit req.size 'x').getD 1 ""])) := by
  rw [buildArgs_eq]
  rcases req.negative_prompt with _ | n <;>
    by_cases hs : 0 ≤ req.seed <;>
    by_cases hl : (strSplit req.size 'x').length = 2 <;>
    simp [hs, hl, List.mem_append, or_assoc]

theorem b64Val_b64Char {d : Nat} (h : d < 64) : b64Val (b64Char d) = some d := by
  have H : ∀ e < 64, b64Val (b64Char e) = some e := by decide
  exact H d h

theorem b64Char_ne_pad (d : Nat) : b64Char d ≠ '=' := by
  rcases Nat.lt_or_ge d 64 with h | h
  · have H : ∀ e < 64, b64Char e ≠ '=' := by decide
    exact H d h
  · unfold b64Char
    rw [List.getD_eq_default _ _ (by simpa using h)]
    decide

theorem b64DecodeChunks_full (v0 v1 v2 v3 : Nat) (h0 : v0 < 64) (h1 : v1 < 64)
    (h2 : v2 < 64) (h3 : v3 < 64) (rest : List Char) :
    b64DecodeChunks (b64Char v0 :: b64Char v1 :: b64Char v2 :: b64Char v3 ::
        rest) =
      match b64DecodeChunks rest with
      | some tail =>
        some (mkByte ((v0 * 262144 + v1 * 4096 + v2 * 64 + v3) / 65536) ::
          mkByte ((v0 * 262144 + v1 * 4096 + v2 * 64 + v3) / 256) ::
          mkByte (v0 * 262144 + v1 * 4096 + v2 * 64 + v3) :: tail)
      | none => none := by
  simp only [b64DecodeChunks, b64Val_b64Char h0, b64Val_b64Char h1,
    b64Val_b64Char h2, b64Val_b64Char h3, if_neg (b64Char_ne_pad v2),
    if_neg (b64Char_ne_pad v3)]

theorem b64_roundtrip (bs : List (Fin 256)) :
    b64DecodeChunks (b64EncodeChunks bs) = some bs := by
  induction bs using b64EncodeChunks.induct with
  | case1 b0 b1 b2 rest ih =>
    obtain ⟨x0, hx0⟩ := b0
    obtain ⟨x1, hx1⟩ := b1
    obtain ⟨x2, hx2⟩ := b2
    simp only [b64EncodeChunks]
    rw [b64DecodeChunks_full _ _ _ _ (by omega) (by omega) (by omega)
      (by omega), ih]
    simp only [Option.some.injEq, List.cons.injEq, mkByte, Fin.mk.injEq,
      and_true, true_and]
    omega
  | case2 b0 b1 =>
    obtain ⟨x0, hx0⟩ := b0
    obtain ⟨x1, hx1⟩ := b1
    have hv0 := b64Val_b64Char (show (x0 * 1024 + x1 * 4) / 4096 < 64 by omega)
    have hv1 := b64Val_b64Char
      (show (x0 * 1024 + x1 * 4) / 64 % 64 < 64 by omega)
    have hv2 := b64Val_b64Char (show (x0 * 1024 + x1 * 4) % 64 < 64 by omega)
    have hne := b64Char_ne_pad ((x0 * 1024 + x1 * 4) % 64)
    simp only [b64EncodeChunks]
    simp [b64DecodeChunks, hv0, hv1, hv2, hne, mkByte, Fin.mk.injEq]
    omega
  | case3 b0 =>
    obtain ⟨x0, hx0⟩ := b0
    have hv0 := b64Val_b64Char (show x0 * 16 / 64 < 64 by omega)
    have hv1 := b64Val_b64Char (show x0 * 16 % 64 < 64 by omega)
    simp only [b64EncodeChunks]
    simp [b64DecodeChunks, hv0, hv1, mkByte, Fin.mk.injEq]
    omega
  | case4 => rfl

theorem b64_string_roundtrip (bs : List (Fin 256)) :
    b64Decode (b64Encode bs) = some bs := by
  unfold b64Decode b64Encode
  exact b64_roundtrip bs

theorem generate_image_argv (ctx : Context) (header : Option String)
    (req : ImageGenerationRequest) (ts : Nat) (proc : ProcessOutcome)
    (readRes : Except String (List (Fin 256))) (d : Bool)
    (h : authOk header ctx.token = true) :
    (generate_image ctx header req ts proc readRes d).argv =
      buildArgs ctx req
        (ctx.cache_dir ++ "/sd_output_" ++ toString ts ++ ".png") := by
  have hv := verify_eq_ok_of_authOk h
  rcases proc with e | ⟨s, st⟩
  · simp [generate_image, hv]
  · rcases s <;> rcases readRes with e2 | bytes <;> simp [generate_image, hv]

theorem dispatch_trace_shapes (ctx : Context) (header : Option String)
    (body : Option ImageGenerationRequest) (ts : Nat) (proc : ProcessOutcome)
    (readRes : Except String (List (Fin 256))) (d : Bool) :
    (dispatch ctx header body ts proc readRes d).trace = [.parseBody] ∨
    (dispatch ctx header body ts proc readRes d).trace =
      [.parseBody, .authCheck] ∨
    (dispatch ctx header body ts proc readRes d).trace =
      [.parseBody, .authCheck, .spawnProcess] := by
  rcases body with _ | req
  · left; rfl
  · simp only [dispatch]
    by_cases h : (generate_image ctx header req ts proc readRes d).spawned
    · right; right; simp [h]
    · right; left; simp [h]

theorem mem_buildArgs_of_size (ctx : Context) (req : ImageGenerationRequest)
    (output_path : String) (tok : String)
    (hfix : tok ∉ fixedTokens ctx req output_path)
    (hm : tok ≠ "-m") (hp : tok ≠ "-p") (ho : tok ≠ "-o")
    (hst : tok ≠ "--steps") (hcfg : tok ≠ "--cfg-scale")
    (hsd : tok ≠ "--seed") (hn : tok ≠ "-n")
    (hin : tok ∈ ["-W", (strSplit req.size 'x').getD 0 "",
      "-H", (strSplit req.size 'x').getD 1 ""]) :
    (tok ∈ buildArgs ctx req output_path ↔
      (strSplit req.size 'x').length = 2) := by
  simp only [fixedTokens, List.mem_append, List.mem_cons, List.mem_singleton,
    List.not_mem_nil, or_false, not_or] at hfix
  obtain ⟨⟨hargs, hmod, hprompt, hout, hsteps, hcfgv, hseedv⟩, hneg⟩ := hfix
  rw [mem_buildArgs]
  constructor
  · rintro (h | h | ⟨hs, h⟩ | ⟨n, hns, h⟩ | ⟨hl, _⟩)
    · exact absurd h hargs
    · simp only [List.mem_cons, List.not_mem_nil, or_false] at h
      rcases h with h | h | h | h | h | h | h | h | h | h <;>
        first
        | exact absurd h hm | exact absurd h hmod | exact absurd h hp
        | exact absurd h hprompt | exact absurd h ho | exact absurd h hout
        | exact absurd h hst | exact absurd h hsteps
        | exact absurd h hcfg | exact absurd h hcfgv
    · simp only [List.mem_cons, List.not_mem_nil, or_false] at h
      rcases h with h | h
      · exact absurd h hsd
      · exact absurd h hseedv
    · simp only [List.mem_cons, List.not_mem_nil, or_false] at h
      rcases h with h | h
      · exact absurd h hn
      · subst h
        exact absurd (by simp [hns]) hneg
    · exact hl
  · intro hl
    exact Or.inr (Or.inr (Or.inr (Or.inr ⟨hl, hin⟩)))

/-- C1 counterexample to the claim as stated over all HTTP requests to the
generation endpoint: a request whose body fails to deserialize and which
carries no Authorization header fails the bearer check, yet it is answered by
the framework's 400 deserialization error (the handler, and with it the
bearer check, never runs), not by a 401. -/
theorem claim1_counterexample :
    authOk none exCtx.token = false ∧
    (dispatch exCtx none none 0 (.completed true "") (.ok [])
      true).outcome.response.status = 400 ∧
    ¬ (dispatch exCtx none none 0 (.completed true "") (.ok [])
      true).outcome.response.status = 401 := by
  decide

/-- C1 (amended): for every request to the generation endpoint whose body
deserializes into an `ImageGenerationRequest` (so that the handler runs),
authentication succeeds iff the Authorization header is present, its value
starts with the literal prefix `Bearer ` (single space), and the remainder
exactly equals the configured secret; and every such request failing this
check receives status 401 with error type `invalid_request_error`, and no
subprocess is spawned for it. -/
theorem claim1_auth_contract (ctx : Context) (header : Option String)
    (req : ImageGenerationRequest) (ts : Nat) (proc : ProcessOutcome)
    (readRes : Except String (List (Fin 256))) (d : Bool) :
    (authOk header ctx.token = true ↔
      ∃ v, header = some v ∧ strStartsWith v "Bearer " = true ∧
        strDrop v 7 = ctx.token) ∧
    (authOk header ctx.token = false →
      (generate_image ctx header req ts proc readRes d).response.status =
        401 ∧
      (generate_image ctx header req ts proc readRes d).response.errType =
        some "invalid_request_error" ∧
      (generate_image ctx header req ts proc readRes d).spawned = false) := by
  refine ⟨authOk_iff header ctx.token, fun h => ?_⟩
  have hv := verify_eq_error_of_not_authOk h
  simp [generate_image, hv, ApiResponse.status, ApiResponse.errType]

/-- Witness for C1 (amended) at a concrete wrong-token request. -/
theorem claim1_auth_contract_witness :
    authOk (some "Bearer wrong") exCtx.token = false ∧
    (generate_image exCtx (some "Bearer wrong") exReq 0 (.completed true "")
      (.ok []) true).response.status = 401 ∧
    (generate_image exCtx (some "Bearer wrong") exReq 0 (.completed true "")
      (.ok []) true).spawned = false := by
  have h := (claim1_auth_contract exCtx (some "Bearer wrong") exReq 0
    (.completed true "") (.ok []) true).2 (by decide)
  exact ⟨by decide, h.1, h.2.2⟩

/-- C2: for every validated generation request (deserialized body, passing
the bearer check), the argument vector passed to the external executable is
exactly, in order: the optional fixed args from configuration, then
`-m models_dir/model`, `-p prompt`, `-o output_path`, `--steps steps`,
`--cfg-scale cfg_scale`, then `--seed seed` only if `seed ≥ 0`, then
`-n negative_prompt` only if provided, then `-W width -H height` only if the
size splits into exactly two pieces on `x`; each argument is a discrete
token of the vector. -/
theorem claim2_arg_order (ctx : Context) (header : Option String)
    (req : ImageGenerationRequest) (ts : Nat) (proc : ProcessOutcome)
    (readRes : Except String (List (Fin 256))) (d : Bool)
    (h : authOk header ctx.token = true) :
    (generate_image ctx header req ts proc readRes d).argv =
      ctx.args.getD [] ++
      ["-m", ctx.models_dir ++ "/" ++ req.model, "-p", req.prompt,
       "-o", ctx.cache_dir ++ "/sd_output_" ++ toString ts ++ ".png",
       "--steps", toString req.steps,
       "--cfg-scale", req.cfg_scale.display] ++
      (if 0 ≤ req.seed then ["--seed", toString req.seed] else []) ++
      (match req.negative_prompt with
        | some n => ["-n", n]
        | none => []) ++
      (if (strSplit req.size 'x').length = 2 then
        ["-W", (strSplit req.size 'x').getD 0 "",
         "-H", (strSplit req.size 'x').getD 1 ""]
       else []) := by
  rw [generate_image_argv ctx header req ts proc readRes d h, buildArgs_eq]

/-- Witness for C2 at the concrete request of the specification's scenario
(`{"prompt":"a cat","model":"sd-v1.ckpt"}`, all defaults). -/
theorem claim2_arg_order_witness :
    authOk (some "Bearer secret") exCtx.token = true ∧
    (generate_image exCtx (some "Bearer secret") exReq 5 (.completed true "")
      (.ok []) true).argv =
      ["-m", "/models/sd-v1.ckpt", "-p", "a cat", "-o",
       "/tmp/sd_output_5.png", "--steps", "20", "--cfg-scale", "7",
       "-W", "512", "-H", "512"] := by
  constructor
  · decide
  · rw [claim2_arg_order exCtx (some "Bearer secret") exReq 5
      (.completed true "") (.ok []) true (by decide)]
    decide

/-- C3 counterexample to the claim as stated: for `size = "512x"` the split
on `x` yields exactly two components of which the second is empty, so the
claim demands that both flags be omitted, yet the built vector contains both
`-W` and `-H` (the code checks only the number of components, not their
non-emptiness). -/
theorem claim3_counterexample :
    ("-W" ∈ buildArgs exCtx { exReq with size := "512x" } "/tmp/out.png" ∧
     "-H" ∈ buildArgs exCtx { exReq with size := "512x" } "/tmp/out.png") ∧
    ¬ ((strSplit "512x" 'x').length = 2 ∧
       ∀ p ∈ strSplit "512x" 'x', p ≠ "") := by
  decide

/-- C3 (amended): for every generation request whose prompt, model path,
output path, steps, cfg-scale, seed renderings, fixed args and negative
prompt do not themselves collide with the flag tokens, the built argument
vector contains `-W` and `-H` iff the size string splits on `x` into exactly
two components, empty or not; otherwise both flags are silently omitted. -/
theorem claim3_size_flags (ctx : Context) (req : ImageGenerationRequest)
    (output_path : String)
    (hW : "-W" ∉ fixedTokens ctx req output_path)
    (hH : "-H" ∉ fixedTokens ctx req output_path) :
    ("-W" ∈ buildArgs ctx req output_path ↔
      (strSplit req.size 'x').length = 2) ∧
    ("-H" ∈ buildArgs ctx req output_path ↔
      (strSplit req.size 'x').length = 2) := by
  constructor
  · exact mem_buildArgs_of_size ctx req output_path "-W" hW (by decide)
      (by decide) (by decide) (by decide) (by decide) (by decide) (by decide)
      (by simp)
  · exact mem_buildArgs_of_size ctx req output_path "-H" hH (by decide)
      (by decide) (by decide) (by decide) (by decide) (by decide) (by decide)
      (by simp)

/-- Witness for C3 (amended) at a concrete request with a malformed size. -/
theorem claim3_size_flags_witness :
    ("-W" ∉ fixedTokens exCtx { exReq with size := "512" } "/tmp/out.png") ∧
    ("-H" ∉ fixedTokens exCtx { exReq with size := "512" } "/tmp/out.png") ∧
    (("-W" ∈ buildArgs exCtx { exReq with size := "512" } "/tmp/out.png" ↔
      (strSplit "512" 'x').length = 2) ∧
     ("-H" ∈ buildArgs exCtx { exReq with size := "512" } "/tmp/out.png" ↔
      (strSplit "512" 'x').length = 2)) :=
  ⟨by decide, by decide,
    claim3_size_flags exCtx { exReq with size := "512" } "/tmp/out.png"
      (by decide) (by decide)⟩

/-- C5: for every generation request (with non-colliding value tokens), the
built argument vector contains `--seed` iff the request's seed is ≥ 0; when
present it is immediately followed by exactly the request's integer seed
value; and the seed defaults to -1 when the field is absent. -/
theorem claim5_seed_flag (ctx : Context) (req : ImageGenerationRequest)
    (output_path : String)
    (hfix : "--seed" ∉ fixedTokens ctx req output_path)
    (hsz0 : (strSplit req.size 'x').getD 0 "" ≠ "--seed")
    (hsz1 : (strSplit req.size 'x').getD 1 "" ≠ "--seed") :
    (("--seed" ∈ buildArgs ctx req output_path) ↔ 0 ≤ req.seed) ∧
    (0 ≤ req.seed → ∃ l r, buildArgs ctx req output_path =
      l ++ ["--seed", toString req.seed] ++ r) ∧
    default_seed = -1 := by
  simp only [fixedTokens, List.mem_append, List.mem_cons, List.mem_singleton,
    List.not_mem_nil, or_false, not_or] at hfix
  obtain ⟨⟨hargs, hmod, hprompt, hout, hsteps, hcfgv, hseedv⟩, hneg⟩ := hfix
  refine ⟨⟨?_, ?_⟩, ?_, rfl⟩
  · rw [mem_buildArgs]
    rintro (h | h | ⟨hs, _⟩ | ⟨n, hns, h⟩ | ⟨_, h⟩)
    · exact absurd h hargs
    · simp only [List.mem_cons, List.not_mem_nil, or_false] at h
      rcases h with h | h | h | h | h | h | h | h | h | h <;>
        first
        | exact absurd h (by decide) | exact absurd h hmod
        | exact absurd h hprompt | exact absurd h hout
        | exact absurd h hsteps | exact absurd h hcfgv
    · exact hs
    · simp only [List.mem_cons, List.not_mem_nil, or_false] at h
      rcases h with h | h
      · exact absurd h (by decide)
      · subst h
        exact absurd (by simp [hns]) hneg
    · simp only [List.mem_cons, List.not_mem_nil, or_false] at h
      rcases h with h | h | h | h
      · exact absurd h (by decide)
      · exact absurd h.symm hsz0
      · exact absurd h (by decide)
      · exact absurd h.symm hsz1
  · intro hs
    rw [mem_buildArgs]
    exact Or.inr (Or.inr (Or.inl ⟨hs, by simp⟩))
  · intro hs
    refine ⟨ctx.args.getD [] ++
      ["-m", ctx.models_dir ++ "/" ++ req.model, "-p", req.prompt,
       "-o", output_path, "--steps", toString req.steps,
       "--cfg-scale", req.cfg_scale.display],
      (match req.negative_prompt with
        | some n => ["-n", n]
        | none => []) ++
      (if (strSplit req.size 'x').length = 2 then
        ["-W", (strSplit req.size 'x').getD 0 "",
         "-H", (strSplit req.size 'x').getD 1 ""]
       else []), ?_⟩
    rw [buildArgs_eq]
    simp [hs, List.append_assoc]

/-- Witness for C5 at a concrete request with seed 42. -/
theorem claim5_seed_flag_witness :
    ("--seed" ∉ fixedTokens exCtx { exReq with seed := 42 } "/tmp/out.png") ∧
    ((("--seed" ∈ buildArgs exCtx { exReq with seed := 42 } "/tmp/out.png") ↔
       0 ≤ (42 : Int)) ∧
     (0 ≤ (42 : Int) → ∃ l r,
       buildArgs exCtx { exReq with seed := 42 } "/tmp/out.png" =
         l ++ ["--seed", toString (42 : Int)] ++ r) ∧
     default_seed = -1) :=
  ⟨by decide,
    claim5_seed_flag exCtx { exReq with seed := 42 } "/tmp/out.png"
      (by decide) (by decide) (by decide)⟩

/-- C4 counterexample to the claim as stated: there is a request to the
generation endpoint (valid credential, well-formed body) whose processing
trace parses the body at position 0 and performs the bearer-credential check
only at position 1, so part of the body is parsed before the credential has
been validated (the `web::Json` extractor runs before the handler). -/
theorem claim4_counterexample :
    ¬ (∀ i j : Nat,
        (dispatch exCtx (some "Bearer secret") (some exReq) 0
          (.completed true "") (.ok []) true).trace.get? i =
          some Event.parseBody →
        (dispatch exCtx (some "Bearer secret") (some exReq) 0
          (.completed true "") (.ok []) true).trace.get? j =
          some Event.authCheck →
        j < i) := by
  intro h
  have h01 := h 0 1 (by decide) (by decide)
  omega

/-- C4 (amended): body deserialization by the framework precedes the
handler, so in every processing trace of the generation endpoint the body
parse comes strictly before the bearer-credential check; within the handler
the credential check comes strictly before any subprocess spawn, and no
field of the parsed body is otherwise consumed before the check (the check
is the handler's first action). -/
theorem claim4_handler_order (ctx : Context) (header : Option String)
    (body : Option ImageGenerationRequest) (ts : Nat) (proc : ProcessOutcome)
    (readRes : Except String (List (Fin 256))) (d : Bool) :
    (∀ i j : Nat,
      (dispatch ctx header body ts proc readRes d).trace.get? i =
        some Event.parseBody →
      (dispatch ctx header body ts proc readRes d).trace.get? j =
        some Event.authCheck →
      i < j) ∧
    (∀ i j : Nat,
      (dispatch ctx header body ts proc readRes d).trace.get? i =
        some Event.authCheck →
      (dispatch ctx header body ts proc readRes d).trace.get? j =
        some Event.spawnProcess →
      i < j) := by
  rcases dispatch_trace_shapes ctx header body ts proc readRes d with
      h | h | h <;>
    rw [h] <;>
    constructor <;>
    intro i j hi hj <;>
    rcases i with _ | _ | _ | i <;>
    rcases j with _ | _ | _ | j <;>
    simp_all [List.get?]

/-- Witness for C4 (amended) at a concrete authenticated request. -/
theorem claim4_handler_order_witness :
    (dispatch exCtx (some "Bearer secret") (some exReq) 0 (.completed true "")
      (.ok []) true).trace.get? 1 = some Event.authCheck ∧
    (dispatch exCtx (some "Bearer secret") (some exReq) 0 (.completed true "")
      (.ok []) true).trace.get? 2 = some Event.spawnProcess ∧
    (1 : Nat) < 2 := by
  refine ⟨by decide, by decide, ?_⟩
  exact (claim4_handler_order exCtx (some "Bearer secret") (some exReq) 0
    (.completed true "") (.ok []) true).2 1 2 (by decide) (by decide)

/-- C6: for every generation request whose external process runs and exits
with a non-zero status, the response has status 500 with error type
`server_error` and a message containing the process's captured
standard-error text verbatim. -/
theorem claim6_nonzero_exit (ctx : Context) (header : Option String)
    (req : ImageGenerationRequest) (ts : Nat) (st : String)
    (readRes : Except String (List (Fin 256))) (d : Bool)
    (h : authOk header ctx.token = true) :
    (generate_image ctx header req ts (.completed false st) readRes
      d).response.status = 500 ∧
    (generate_image ctx header req ts (.completed false st) readRes
      d).response.errType = some "server_error" ∧
    ∃ pre post,
      (generate_image ctx header req ts (.completed false st) readRes
        d).response.msg = some (pre ++ st ++ post) := by
  have hv := verify_eq_ok_of_authOk h
  refine ⟨?_, ?_, ⟨"Image generation failed: ", "", ?_⟩⟩ <;>
    simp [generate_image, hv, ApiResponse.status, ApiResponse.errType,
      ApiResponse.msg, String.append_empty]

/-- Witness for C6 at a concrete failing process run. -/
theorem claim6_nonzero_exit_witness :
    authOk (some "Bearer secret") exCtx.token = true ∧
    ((generate_image exCtx (some "Bearer secret") exReq 0
      (.completed false "boom") (.ok []) true).response.status = 500 ∧
     (generate_image exCtx (some "Bearer secret") exReq 0
      (.completed false "boom") (.ok []) true).response.errType =
       some "server_error" ∧
     ∃ pre post,
       (generate_image exCtx (some "Bearer secret") exReq 0
         (.completed false "boom") (.ok []) true).response.msg =
         some (pre ++ "boom" ++ post)) :=
  ⟨by decide, claim6_nonzero_exit exCtx (some "Bearer secret") exReq 0 "boom"
    (.ok []) true (by decide)⟩

/-- C7: for every generation request whose external process exits zero but
whose declared output file cannot be read, the response is 500 with error
type `server_error` and a message describing the read failure, no image data
is returned, and no file deletion is attempted on this path. -/
theorem claim7_read_failure (ctx : Context) (header : Option String)
    (req : ImageGenerationRequest) (ts : Nat) (st : String) (e : String)
    (d : Bool) (h : authOk header ctx.token = true) :
    (generate_image ctx header req ts (.completed true st) (.error e)
      d).response.status = 500 ∧
    (generate_image ctx header req ts (.completed true st) (.error e)
      d).response.errType = some "server_error" ∧
    (generate_image ctx header req ts (.completed true st) (.error e)
      d).response.msg = some ("Failed to read output image: " ++ e) ∧
    (generate_image ctx header req ts (.completed true st) (.error e)
      d).response.images = none ∧
    (generate_image ctx header req ts (.completed true st) (.error e)
      d).deleteResult = none := by
  have hv := verify_eq_ok_of_authOk h
  simp [generate_image, hv, ApiResponse.status, ApiResponse.errType,
    ApiResponse.msg, ApiResponse.images]

/-- Witness for C7 at a concrete unreadable output file. -/
theorem claim7_read_failure_witness :
    authOk (some "Bearer secret") exCtx.token = true ∧
    ((generate_image exCtx (some "Bearer secret") exReq 0 (.completed true "")
      (.error "No such file") true).response.status = 500 ∧
     (generate_image exCtx (some "Bearer secret") exReq 0 (.completed true "")
      (.error "No such file") true).response.errType = some "server_error" ∧
     (generate_image exCtx (some "Bearer secret") exReq 0 (.completed true "")
      (.error "No such file") true).response.msg =
       some ("Failed to read output image: " ++ "No such file") ∧
     (generate_image exCtx (some "Bearer secret") exReq 0 (.completed true "")
      (.error "No such file") true).response.images = none ∧
     (generate_image exCtx (some "Bearer secret") exReq 0 (.completed true "")
      (.error "No such file") true).deleteResult = none) :=
  ⟨by decide, claim7_read_failure exCtx (some "Bearer secret") exReq 0 ""
    "No such file" true (by decide)⟩

/-- C8: for every successful generation, the returned `b64_json` is the
standard-alphabet padded base64 encoding of exactly the bytes read from the
output file, decoding it yields those bytes back (round-trip), the deletion
of the output file is attempted afterward, and the success response does not
depend on whether that deletion succeeds. -/
theorem claim8_success_roundtrip (ctx : Context) (header : Option String)
    (req : ImageGenerationRequest) (ts : Nat) (st : String)
    (bytes : List (Fin 256)) (d d' : Bool)
    (h : authOk header ctx.token = true) :
    (generate_image ctx header req ts (.completed true st) (.ok bytes)
      d).response = .ok ts [b64Encode bytes] ∧
    b64Decode (b64Encode bytes) = some bytes ∧
    (generate_image ctx header req ts (.completed true st) (.ok bytes)
      d).deleteResult = some d ∧
    (generate_image ctx header req ts (.completed true st) (.ok bytes)
      d').response =
      (generate_image ctx header req ts (.completed true st) (.ok bytes)
        d).response := by
  have hv := verify_eq_ok_of_authOk h
  refine ⟨?_, b64_string_roundtrip bytes, ?_, ?_⟩ <;>
    simp [generate_image, hv]

/-- Witness for C8 at a concrete one-byte output file. -/
theorem claim8_success_roundtrip_witness :
    authOk (some "Bearer secret") exCtx.token = true ∧
    ((generate_image exCtx (some "Bearer secret") exReq 7 (.completed true "")
      (.ok [mkByte 77]) true).response = .ok 7 [b64Encode [mkByte 77]] ∧
     b64Decode (b64Encode [mkByte 77]) = some [mkByte 77] ∧
     (generate_image exCtx (some "Bearer secret") exReq 7 (.completed true "")
      (.ok [mkByte 77]) true).deleteResult = some true ∧
     (generate_image exCtx (some "Bearer secret") exReq 7 (.completed true "")
      (.ok [mkByte 77]) false).response =
       (generate_image exCtx (some "Bearer secret") exReq 7
         (.completed true "") (.ok [mkByte 77]) true).response) :=
  ⟨by decide, claim8_success_roundtrip exCtx (some "Bearer secret") exReq 7 ""
    [mkByte 77] true false (by decide)⟩

/-- C9: every generation request that passes authentication carries the
output artifact path `cache_dir/sd_output_<timestamp>.png` where
`<timestamp>` is the request's start time in whole seconds since the Unix
epoch; the `created` field of a success response equals that same timestamp;
and the serde defaults are size `512x512`, steps 20 and cfg_scale 7.0
(an f32 rendering as `7`). -/
theorem claim9_artifact_and_defaults (ctx : Context) (header : Option String)
    (req : ImageGenerationRequest) (ts : Nat) (proc : ProcessOutcome)
    (readRes : Except String (List (Fin 256))) (d : Bool)
    (h : authOk header ctx.token = true) :
    (generate_image ctx header req ts proc readRes d).outputPath =
      some (ctx.cache_dir ++ "/sd_output_" ++ toString ts ++ ".png") ∧
    (∀ c data,
      (generate_image ctx header req ts proc readRes d).response =
        .ok c data → c = ts) ∧
    default_size = "512x512" ∧ default_steps = 20 ∧
    default_cfg_scale = ⟨"7"⟩ := by
  have hv := verify_eq_ok_of_authOk h
  refine ⟨?_, ?_, rfl, rfl, rfl⟩
  · rcases proc with e | ⟨s, st⟩
    · simp [generate_image, hv]
    · rcases s <;> rcases readRes with e2 | bytes <;>
        simp [generate_image, hv]
  · intro c data hr
    rcases proc with e | ⟨s, st⟩
    · simp [generate_image, hv] at hr
    · rcases s
      · simp [generate_image, hv] at hr
      · rcases readRes with e2 | bytes
        · simp [generate_image, hv] at hr
        · simp [generate_image, hv] at hr
          exact hr.1.symm

/-- Witness for C9 at a concrete authenticated request. -/
theorem claim9_artifact_and_defaults_witness :
    authOk (some "Bearer secret") exCtx.token = true ∧
    ((generate_image exCtx (some "Bearer secret") exReq 7 (.completed true "")
      (.ok []) true).outputPath =
       some (exCtx.cache_dir ++ "/sd_output_" ++ toString 7 ++ ".png") ∧
     (∀ c data,
       (generate_image exCtx (some "Bearer secret") exReq 7
         (.completed true "") (.ok []) true).response = .ok c data →
       c = 7) ∧
     default_size = "512x512" ∧ default_steps = 20 ∧
     default_cfg_scale = ⟨"7"⟩) :=
  ⟨by decide, claim9_artifact_and_defaults exCtx (some "Bearer secret") exReq
    7 (.completed true "") (.ok []) true (by decide)⟩

/-- C10: every success response from the generation endpoint contains a data
array of exactly one image element; the server never returns zero or
multiple images on success. -/
theorem claim10_single_image (ctx : Context) (header : Option String)
    (body : Option ImageGenerationRequest) (ts : Nat) (proc : ProcessOutcome)
    (readRes : Except String (List (Fin 256))) (d : Bool) (c : Nat)
    (data : List String)
    (h : (dispatch ctx header body ts proc readRes d).outcome.response =
      .ok c data) :
    data.length = 1 := by
  rcases body with _ | req
  · simp [dispatch] at h
  · rcases verify_cases header ctx.token with hv | hv
    · rcases proc with e | ⟨s, st⟩
      · simp [dispatch, generate_image, hv] at h
      · rcases s
        · simp [dispatch, generate_image, hv] at h
        · rcases readRes with e2 | bytes
          · simp [dispatch, generate_image, hv] at h
          · simp [dispatch, generate_image, hv] at h
            rw [← h.2]
            rfl
    · simp [dispatch, generate_image, hv] at h

/-- Witness for C10 at a concrete successful generation. -/
theorem claim10_single_image_witness :
    (dispatch exCtx (some "Bearer secret") (some exReq) 0 (.completed true "")
      (.ok []) true).outcome.response = .ok 0 [""] ∧
    ([""] : List String).length = 1 :=
  ⟨by decide, claim10_single_image exCtx (some "Bearer secret") (some exReq) 0
    (.completed true "") (.ok []) true 0 [""] (by decide)⟩

end SDServer
